import Mathlib

/-!
Verification of the actlib distributed actor runtime (LanyK/infinigryd).

This file gives a shallow embedding of the parts of the runtime that the
specified properties talk about:

* identity, mailbox envelopes and wire messages
  (src/actlib/src/actor.rs, src/actlib/src/message.rs),
* the per-node environment state and its operations: protector bookkeeping,
  removal, stop processing, lookup, spawn, expiration
  (src/actlib/src/environment.rs, src/actlib/src/api.rs),
* reference send endpoints and ActorRef::send_message (src/actlib/src/actor.rs),
* the length-prefixed framing of the reference transport
  (src/netchannel/src/netchannel.rs).

Mutable shared state is modelled by explicit state passing; mpsc channels by
the list of values queued in them; TCP links by the list of frames written;
lock poisoning is absent (every lock acquisition succeeds); UUID draws and
serialization outcomes are inputs of the modelled operations.
-/

namespace Actlib

/-- LocalId from src/actlib/src/actor.rs: a per-node-unique value, either an
automatically drawn UUID (modelled as a natural number) or an
application-specified byte string. -/
inductive LocalId where
  | Automatic (uuid : Nat)
  | Specified (bytes : List Nat)
deriving DecidableEq

/-- IP addresses, modelled as natural numbers. -/
abbrev Ip := Nat

/-- ActorId from src/actlib/src/actor.rs: the pair of local id and node of
residence. -/
structure ActorId where
  local_id : LocalId
  location : Ip
deriving DecidableEq

/-- Token from src/actlib/src/message.rs. -/
inductive Token where
  | Stop
  | Reset
deriving DecidableEq

/-- EitherMessage from src/actlib/src/message.rs. The dynamically typed
payload of a Regular message is opaque and modelled by a natural number. -/
inductive EitherMessage where
  | Serialized (bytes : List Nat)
  | Regular (payload : Nat)
  | Special (tok : Token)
deriving DecidableEq

/-- NetMessage from src/actlib/src/message.rs: the frames exchanged between
nodes. -/
inductive NetMessage where
  | Message (id : ActorId) (bytes : List Nat)
  | SpecialToken (id : ActorId) (bytes : List Nat)
  | SpawnByTypeId (tag : String) (lid : LocalId)
  | QuerySpecifiedId (queried : List Nat) (sender : Ip) (searcher : ActorId) (protectFlag : Bool)
  | QuerySpecifiedIdResult (queried : List Nat) (searcher : ActorId) (result : Option Ip)
  | RemoveProtector (protector : ActorId) (target : ActorId)
  | Broadcast (bytes : List Nat)
  | SendExpirationSignal
deriving DecidableEq

/-- ActlibError from src/actlib/src/errors.rs. -/
inductive ActlibError where
  | ActorNotFound (msg : String)
  | LockPoisoned (msg : String)
  | SpawnFailed (msg : String)
  | InvalidState (msg : String)
  | NetworkError (msg : String)
  | InvalidActorRef (msg : String)
deriving DecidableEq

/-- ActorRefChannel from src/actlib/src/actor.rs. The boolean records whether
the receiving end of the underlying mpsc channel is still alive, which is
exactly the condition under which Sender::send succeeds. -/
inductive ActorRefChannel where
  | Local (isAlive : Bool)
  | Remote (isAlive : Bool)
deriving DecidableEq

/-- ActorRef from src/actlib/src/actor.rs: identifier plus send endpoint. -/
structure ActorRef where
  actor_id : ActorId
  sender : ActorRefChannel
deriving DecidableEq

/-- Discriminator: does the error held by this result carry the
NetworkError kind? -/
def errIsNetworkError : Except ActlibError Unit → Bool
  | .error (.NetworkError _) => true
  | _ => false

/-- Discriminator: does the error held by this result carry the
InvalidActorRef kind? -/
def errIsInvalidActorRef : Except ActlibError Unit → Bool
  | .error (.InvalidActorRef _) => true
  | _ => false

/-- Discriminator: does the error held by a spawn result carry the
InvalidState kind? -/
def spawnErrIsInvalidState : Except ActlibError ActorRef → Bool
  | .error (.InvalidState _) => true
  | _ => false

/-- Channel endpoint of the send target is alive (the mpsc receiver has not
been dropped). -/
def channelOpen : ActorRefChannel → Bool
  | .Local b => b
  | .Remote b => b

/-- Channel endpoint routes through the node-wide outbound queue. -/
def channelIsRemote : ActorRefChannel → Bool
  | .Local _ => false
  | .Remote _ => true

/-- ActorRef::send_message (src/actlib/src/actor.rs lines 151-181).
The local arm sends a Regular envelope into the mailbox channel; failure of
that send (receiver dropped) gives InvalidActorRef. The remote arm first
serializes the message; serialization failure gives NetworkError, and a
failing send into the outbound queue gives InvalidActorRef. The channel
state and the serialization outcome are inputs. -/
def send_message (sender : ActorRefChannel) (serializeOk : Bool) : Except ActlibError Unit :=
  match sender with
  | .Local isAlive =>
      if isAlive then .ok ()
      else .error (.InvalidActorRef "This ActorRef is no longer connected to an Actor")
  | .Remote isAlive =>
      if serializeOk then
        if isAlive then .ok ()
        else .error (.InvalidActorRef "Can no longer send Messages to remote Actors")
      else .error (.NetworkError "Unable to serialize message")

instance {ε α : Type} [DecidableEq ε] [DecidableEq α] : DecidableEq (Except ε α) := fun x y =>
  match x, y with
  | .ok a, .ok b =>
      if h : a = b then .isTrue (by rw [h]) else .isFalse (by simp [h])
  | .error a, .error b =>
      if h : a = b then .isTrue (by rw [h]) else .isFalse (by simp [h])
  | .ok _, .error _ => .isFalse (by simp)
  | .error _, .ok _ => .isFalse (by simp)

/-- Serialization of a Token (bincode enum tag), opaque but injective. -/
def serializeToken : Token → List Nat
  | .Stop => [0]
  | .Reset => [1]

/-- LoadBalancer from src/actlib/src/environment.rs lines 1013-1038. -/
structure LoadBalancer where
  counter : Nat
  num_machines : Nat
deriving DecidableEq

/-- LoadBalancer::new. -/
def LoadBalancer.new (num_machines : Nat) : LoadBalancer :=
  { counter := 0, num_machines := num_machines }

/-- LoadBalancer::next_machine_no (environment.rs lines 1028-1037), in
state-passing form: returns the drawn slot and the successor state. -/
def LoadBalancer.next_machine_no (lb : LoadBalancer) : Nat × LoadBalancer :=
  if lb.counter < lb.num_machines then
    (lb.counter, { lb with counter := lb.counter + 1 })
  else
    (0, { lb with counter := 0 })

/-- Successive outputs of k calls to next_machine_no. -/
def run_load_balancer (lb : LoadBalancer) : Nat → List Nat
  | 0 => []
  | k + 1 =>
      let (n, lb') := lb.next_machine_no
      n :: run_load_balancer lb' k

/-- Association-list lookup, modelling HashMap::get / IndexMap::get. -/
def lookupA {α β : Type} [DecidableEq α] : List (α × β) → α → Option β
  | [], _ => none
  | (k, v) :: rest, key => if k = key then some v else lookupA rest key

/-- Association-list key test, modelling HashMap::contains_key. -/
def containsKeyA {α β : Type} [DecidableEq α] (m : List (α × β)) (key : α) : Bool :=
  (lookupA m key).isSome

/-- Apply a function to the value stored under a key (first matching entry). -/
def updateA {α β : Type} [DecidableEq α] : List (α × β) → α → (β → β) → List (α × β)
  | [], _, _ => []
  | (k, v) :: rest, key, f =>
      if k = key then (k, f v) :: rest else (k, v) :: updateA rest key f

/-- Remove the entry stored under a key (first matching entry), modelling
HashMap::remove. -/
def eraseKeyA {α β : Type} [DecidableEq α] : List (α × β) → α → List (α × β)
  | [], _ => []
  | (k, v) :: rest, key =>
      if k = key then rest else (k, v) :: eraseKeyA rest key

/-- Insert, modelling HashMap::insert: replace the stored value when the key
is present, append a new entry otherwise. -/
def insertA {α β : Type} [DecidableEq α] (m : List (α × β)) (key : α) (v : β) : List (α × β) :=
  if containsKeyA m key then updateA m key (fun _ => v) else m ++ [(key, v)]

/-- Insertion into a HashSet of actor ids (no duplicates). -/
def setInsert (s : List ActorId) (x : ActorId) : List ActorId :=
  if x ∈ s then s else s ++ [x]

/-- LocalEnvironment state (src/actlib/src/environment.rs lines 67-93),
restricted to the fields the verified operations touch.

* local_actor_channels maps each resident actor id to the content of its
  mailbox channel (presence of the key is registration);
* net_senders is the ordered peer map, each peer paired with the list of
  frames written to its link so far;
* remote_queries maps an outstanding lookup key (queried bytes, searcher) to
  the sender of its reply channel (opaque, modelled by Unit);
* invincible_actors maps each protected target to the set of its protectors;
* termination_signals counts the values sent into the termination channel. -/
structure EnvState where
  localIp : Ip
  local_actor_channels : List (ActorId × List EitherMessage)
  net_senders : List (Ip × List NetMessage)
  remote_queries : List ((List Nat × ActorId) × Unit)
  invincible_actors : List (ActorId × List ActorId)
  load_balancer : LoadBalancer
  termination_signals : Nat

set_option synthInstance.maxHeartbeats 1000000 in
deriving instance DecidableEq for EnvState

/-- LocalEnvironment::add_protector (environment.rs lines 676-691): insert
the protector into the target's set, creating a singleton set when the
target has no entry yet. -/
def add_protector (st : EnvState) (protector_id target_id : ActorId) : EnvState :=
  match lookupA st.invincible_actors target_id with
  | some _ =>
      { st with invincible_actors :=
          updateA st.invincible_actors target_id (fun ps => setInsert ps protector_id) }
  | none =>
      { st with invincible_actors := st.invincible_actors ++ [(target_id, [protector_id])] }

/-- LocalEnvironment::remove_protector (environment.rs lines 694-725): when
the target has an entry, erase the protector from its set (the entry itself
is kept, even when the set becomes empty); otherwise forward RemoveProtector
to every peer. -/
def remove_protector (st : EnvState) (protector_id target_id : ActorId) : EnvState :=
  match lookupA st.invincible_actors target_id with
  | some _ =>
      { st with invincible_actors :=
          updateA st.invincible_actors target_id (fun ps => ps.erase protector_id) }
  | none =>
      let ns := st.net_senders.map
        (fun (p : Ip × List NetMessage) => (p.1, p.2 ++ [NetMessage.RemoveProtector protector_id target_id]))
      { st with net_senders := ns }

/-- LocalEnvironment::remove (environment.rs lines 509-557). Remote targets
get a serialized SpecialToken(Stop) written on their peer link; a local
target with an entry in invincible_actors is left alone; otherwise its
channel entry is removed from local_actor_channels. -/
def remove (st : EnvState) (actor_id : ActorId) : EnvState :=
  if actor_id.location ≠ st.localIp then
    match lookupA st.net_senders actor_id.location with
    | some _ =>
        let ns := updateA st.net_senders actor_id.location
          (fun q => q ++ [NetMessage.SpecialToken actor_id (serializeToken Token.Stop)])
        { st with net_senders := ns }
    | none => st
  else
    if containsKeyA st.invincible_actors actor_id then st
    else { st with local_actor_channels := eraseKeyA st.local_actor_channels actor_id }

/-- One step of actor_mailbox_loop processing Special(Stop)
(environment.rs lines 914-923): when the actor id has an entry in
invincible_actors the token is ignored and the loop continues; otherwise
on_stop runs, remove is called and the loop exits. The boolean result
records whether the actor stopped. -/
def process_stop (st : EnvState) (this_actor_id : ActorId) : EnvState × Bool :=
  if containsKeyA st.invincible_actors this_actor_id then (st, false)
  else (remove st this_actor_id, true)

/-- LocalEnvironment::send_expiration_signal (environment.rs lines 947-979):
write SendExpirationSignal to every peer link, enqueue Special(Stop) into
every registered mailbox, then release the termination signal once. -/
def send_expiration_signal (st : EnvState) : EnvState :=
  let ns := st.net_senders.map
    (fun (p : Ip × List NetMessage) => (p.1, p.2 ++ [NetMessage.SendExpirationSignal]))
  let st1 := { st with net_senders := ns }
  let lac := st1.local_actor_channels.map
    (fun (p : ActorId × List EitherMessage) => (p.1, p.2 ++ [EitherMessage.Special Token.Stop]))
  let st2 := { st1 with local_actor_channels := lac }
  { st2 with termination_signals := st2.termination_signals + 1 }

/-- Handling of NetMessage::QuerySpecifiedIdResult inside
wait_for_remote_messages (environment.rs lines 363-420). A positive result
removes the outstanding entry and pushes a remote reference built from the
queried bytes and the reported address; a negative result pushes a negative
answer while keeping the entry. The second component is the value pushed
onto the reply channel, none when nothing was pushed. -/
def handle_query_result (st : EnvState) (queried : List Nat) (searcher : ActorId)
    (result : Option Ip) : EnvState × Option (Option ActorRef) :=
  match result with
  | some ip =>
      match lookupA st.remote_queries (queried, searcher) with
      | some _ =>
          ({ st with remote_queries := eraseKeyA st.remote_queries (queried, searcher) },
           some (some { actor_id := { local_id := LocalId.Specified queried, location := ip },
                        sender := ActorRefChannel.Remote true }))
      | none => (st, none)
  | none =>
      match lookupA st.remote_queries (queried, searcher) with
      | some _ => (st, some none)
      | none => (st, none)

/-- LocalEnvironment::find_actor_ref (environment.rs lines 562-640). A
locally resident target (with protection bookkeeping when requested) yields
a pre-filled reply channel and a wait count of 1; otherwise the lookup is
registered in remote_queries, QuerySpecifiedId is written to every peer and
the wait count is the number of peers. Lock poisoning and write failures
are modelled as absent. -/
def env_find_actor_ref (st : EnvState) (queried_id : List Nat) (searcher : ActorId)
    (protectFlag : Bool) : EnvState × List (Option ActorRef) × Nat :=
  let target : ActorId := { local_id := LocalId.Specified queried_id, location := st.localIp }
  if containsKeyA st.local_actor_channels target then
    let st1 := if protectFlag then add_protector st searcher target else st
    (st1, [some { actor_id := target, sender := ActorRefChannel.Local true }], 1)
  else
    let st1 := { st with remote_queries := insertA st.remote_queries (queried_id, searcher) () }
    let ns := st1.net_senders.map
      (fun (p : Ip × List NetMessage) => (p.1, p.2 ++ [NetMessage.QuerySpecifiedId queried_id st.localIp searcher protectFlag]))
    let st2 := { st1 with net_senders := ns }
    (st2, [], st2.net_senders.length)

/-- LocalEnvironment::remove_remote_query (environment.rs lines 727-733). -/
def remove_remote_query (st : EnvState) (queried_id : List Nat) (searcher : ActorId) : EnvState :=
  { st with remote_queries := eraseKeyA st.remote_queries (queried_id, searcher) }

/-- Receive loop of Environment::find_actor_ref (src/actlib/src/api.rs lines
214-221): up to numWait values are taken from the reply channel and the
first positive one ends the loop; exhausting the channel (closed receiver)
leaves the negative default. -/
def collect_result : List (Option ActorRef) → Nat → Option ActorRef
  | _, 0 => none
  | [], _ + 1 => none
  | r :: rest, n + 1 =>
      match r with
      | some a => some a
      | none => collect_result rest n

/-- Environment::find_actor_ref (src/actlib/src/api.rs lines 198-224):
run the environment-level lookup, drain the reply channel, always remove
the outstanding entry, return the collected result. remoteReplies is the
sequence of answers the peers push onto the reply channel. -/
def api_find_actor_ref (st : EnvState) (queried_id : List Nat) (searcher : ActorId)
    (protectFlag : Bool) (remoteReplies : List (Option ActorRef)) : EnvState × Option ActorRef :=
  let res := env_find_actor_ref st queried_id searcher protectFlag
  let result := collect_result (res.2.1 ++ remoteReplies) res.2.2
  (remove_remote_query res.1 queried_id searcher, result)

/-- SpawnId from src/actlib/src/environment.rs lines 102-110. -/
inductive SpawnId where
  | Automatic
  | SpawnHere (id : LocalId)
  | User (id : LocalId)
deriving DecidableEq

/-- SpawnId::is_spawn_here. -/
def SpawnId.is_spawn_here : SpawnId → Bool
  | .SpawnHere _ => true
  | _ => false

/-- SpawnId::unwrap_or_automatic; the fresh UUID draw is an input. -/
def SpawnId.unwrap_or_automatic : SpawnId → Nat → LocalId
  | .Automatic, fresh => LocalId.Automatic fresh
  | .SpawnHere id, _ => id
  | .User id, _ => id

/-- Builder function produced by the actor_builder macro
(environment.rs lines 48-62): linear search through the registered type
tags, unknown tags give SpawnFailed. The constructed actor body is opaque. -/
def actor_builder (registered : List String) (type_id : String) : Except ActlibError Unit :=
  if type_id ∈ registered then .ok ()
  else .error (.SpawnFailed ("Unknown actor type: " ++ type_id))

/-- LocalEnvironment::to_actor_ref (environment.rs lines 647-674). -/
def to_actor_ref (st : EnvState) (actor_id : ActorId) : Except ActlibError ActorRef :=
  if actor_id.location = st.localIp then
    match lookupA st.local_actor_channels actor_id with
    | some _ => .ok { actor_id := actor_id, sender := ActorRefChannel.Local true }
    | none => .error (.ActorNotFound "Did not find local actor")
  else
    .ok { actor_id := actor_id, sender := ActorRefChannel.Remote true }

/-- Replace the element at an index, used for IndexMap::get_index_mut
followed by a write on the stored sender. -/
def updateAt {α : Type} : List α → Nat → (α → α) → List α
  | [], _, _ => []
  | x :: rest, 0, f => f x :: rest
  | x :: rest, n + 1, f => x :: updateAt rest n f

/-- LocalEnvironment::spawn (environment.rs lines 780-892). A SpawnHere id
skips the load balancer; slot 0 builds the actor (unknown tags fail with
SpawnFailed before any registration), registers a fresh mailbox channel and
returns a local reference; slot v+1 looks up peer v in net_senders, writes
SpawnByTypeId on its link and returns a reference through to_actor_ref; a
missing index gives InvalidState. registered models the builder's tag
table, freshUuid the Uuid::new_v4 draw. -/
def spawn (st : EnvState) (registered : List String) (actor_type_id : String)
    (local_id : SpawnId) (freshUuid : Nat) : EnvState × Except ActlibError ActorRef :=
  let drawn :=
    if local_id.is_spawn_here then (0, st)
    else
      let res := st.load_balancer.next_machine_no
      (res.1, { st with load_balancer := res.2 })
  let machine_no := drawn.1
  let st0 := drawn.2
  match machine_no with
  | 0 =>
      match actor_builder registered actor_type_id with
      | .error e => (st0, .error e)
      | .ok _ =>
          let actor_id : ActorId :=
            { local_id := local_id.unwrap_or_automatic freshUuid, location := st0.localIp }
          let actor_ref : ActorRef :=
            { actor_id := actor_id, sender := ActorRefChannel.Local true }
          ({ st0 with local_actor_channels := insertA st0.local_actor_channels actor_id [] },
           .ok actor_ref)
  | v + 1 =>
      match st0.net_senders.get? v with
      | some machineEntry =>
          let new_actor_local_id := local_id.unwrap_or_automatic freshUuid
          let ns := updateAt st0.net_senders v
            (fun (p : Ip × List NetMessage) => (p.1, p.2 ++ [NetMessage.SpawnByTypeId actor_type_id new_actor_local_id]))
          let st1 := { st0 with net_senders := ns }
          (st1, to_actor_ref st1 { local_id := new_actor_local_id, location := machineEntry.1 })
      | none =>
          (st0, .error (.InvalidState "Error: LoadBalancer returned machine no that is invalid"))

/-- Fixture: a target actor with a user-specified id, resident on node 0. -/
def tgt : ActorId := { local_id := LocalId.Specified [7], location := 0 }

/-- Fixture: a searching actor, resident on node 0. -/
def searcherId : ActorId := { local_id := LocalId.Specified [9], location := 0 }

/-- Fixture: a single-node environment hosting only the target actor. -/
def stBase : EnvState :=
  { localIp := 0
    local_actor_channels := [(tgt, [])]
    net_senders := []
    remote_queries := []
    invincible_actors := []
    load_balancer := LoadBalancer.new 1
    termination_signals := 0 }

/-- Fixture: an environment with one outstanding lookup for ([8], searcherId). -/
def stQuery : EnvState := { stBase with remote_queries := [(([8], searcherId), ())] }

/-- Fixture: an environment connected to two peers, with the load balancer
mid-cycle. -/
def stTwoPeers : EnvState :=
  { localIp := 0
    local_actor_channels := []
    net_senders := [(5, []), (6, [])]
    remote_queries := []
    invincible_actors := []
    load_balancer := { counter := 1, num_machines := 3 }
    termination_signals := 0 }

end Actlib

namespace Netchannel

/-- NetSender::write (src/netchannel/src/netchannel.rs lines 353-363): the
payload length is truncated to u16 and prepended in big-endian order, then
the payload bytes follow. -/
def write (bin_obj : List Nat) : List Nat :=
  (bin_obj.length % 65536) / 256 :: (bin_obj.length % 65536) % 256 :: bin_obj

/-- Frame-parsing loop of NetReceiver::read (src/netchannel/src/netchannel.rs
lines 305-329) over the read buffer: combine the two bytes at the cursor
into a big-endian 16-bit length; while it is nonzero, slice out that many
payload bytes and continue behind them. Reads past the end yield 0,
matching the zero-initialized read buffer of the caller. -/
def read (buffer : List Nat) : List (List Nat) :=
  if h : (buffer.getD 0 0) * 256 ||| buffer.getD 1 0 = 0 then []
  else
    (buffer.drop 2).take ((buffer.getD 0 0) * 256 ||| buffer.getD 1 0) ::
      read (buffer.drop (2 + ((buffer.getD 0 0) * 256 ||| buffer.getD 1 0)))
termination_by buffer.length
decreasing_by
  rcases buffer with _ | ⟨x, rest⟩
  · simp [List.getD] at h
  · simp only [List.length_drop, List.length_cons]
    omega

/-- Concatenation of the frames written for a sequence of payloads. -/
def writeAll : List (List Nat) → List Nat
  | [] => []
  | p :: ps => write p ++ writeAll ps

end Netchannel

namespace Netchannel

/-- Big-endian recombination: the two prefix bytes that write emits for a
length L reassemble to L under the bitwise-or used by read. -/
theorem lor_be16 (L : Nat) : L / 256 * 256 ||| L % 256 = L := by
  rw [Nat.mul_comm]
  have h : L % 256 < 2 ^ 8 := by
    have := Nat.mod_lt L (show 0 < 256 by norm_num)
    simpa using this
  calc (256 : Nat) * (L / 256) ||| L % 256
      = 2 ^ 8 * (L / 256) ||| L % 256 := by norm_num
    _ = 2 ^ 8 * (L / 256) + L % 256 := (Nat.mul_add_lt_is_or h _).symm
    _ = 256 * (L / 256) + L % 256 := by norm_num
    _ = L := Nat.div_add_mod L 256

/-- Reading an empty buffer yields no frames. -/
theorem read_nil : read [] = [] := by
  rw [read]
  simp [List.getD]

/-- Reading stops at a zero length word. -/
theorem read_zero (rest : List Nat) : read (0 :: 0 :: rest) = [] := by
  rw [read]
  simp [List.getD]

/-- Unfolding of read on a buffer with a nonzero length word. -/
theorem read_cons (b0 b1 : Nat) (rest : List Nat) (h : ¬ b0 * 256 ||| b1 = 0) :
    read (b0 :: b1 :: rest) =
      rest.take (b0 * 256 ||| b1) :: read (rest.drop (b0 * 256 ||| b1)) := by
  rw [read]
  have hg0 : (b0 :: b1 :: rest).getD 0 0 = b0 := rfl
  have hg1 : (b0 :: b1 :: rest).getD 1 0 = b1 := rfl
  rw [hg0, hg1]
  rw [dif_neg h]
  have hdrop2 : (b0 :: b1 :: rest).drop 2 = rest := rfl
  have hdrop : (b0 :: b1 :: rest).drop (2 + (b0 * 256 ||| b1)) = rest.drop (b0 * 256 ||| b1) := by
    rw [Nat.add_comm]
    rfl
  rw [hdrop2, hdrop]

end Netchannel

namespace Netchannel

/-- C6 (counterexample): a payload of exactly 64 KiB does not survive the
write-then-read round trip: its length truncates to 0 in the u16 prefix,
so read finds a zero length word and returns no frames at all. -/
theorem c6_frame_of_64KiB_lost :
    read (writeAll [List.replicate 65536 0]) ≠ [List.replicate 65536 0] := by
  have hlen : (List.replicate 65536 (0 : Nat)).length = 65536 := List.length_replicate _ _
  have hw : writeAll [List.replicate 65536 (0 : Nat)] =
      0 :: 0 :: (List.replicate 65536 0 ++ []) := by
    unfold writeAll write
    rw [hlen]
    norm_num
    rfl
  rw [hw, read_zero]
  exact fun hcontra => List.noConfusion hcontra

/-- C6 (amended): for payload sizes the 16-bit length prefix can carry
(1 to 65535 bytes; 64 KiB itself is excluded, see the counterexample),
NetSender::write emits the big-endian 16-bit length followed by the payload
bytes, and NetReceiver::read applied to a buffer holding one or more such
frames returns exactly the original payloads in order. -/
theorem c6_write_read_round_trip (ps : List (List Nat))
    (h : ∀ p ∈ ps, 1 ≤ p.length ∧ p.length ≤ 65535) :
    read (writeAll ps) = ps := by
  induction ps with
  | nil => simpa [writeAll] using read_nil
  | cons p ps ih =>
      obtain ⟨h1, h2⟩ := h p (List.mem_cons_self p ps)
      have hmod : p.length % 65536 = p.length := Nat.mod_eq_of_lt (by omega)
      have hwa : writeAll (p :: ps) =
          p.length / 256 :: p.length % 256 :: (p ++ writeAll ps) := by
        simp [writeAll, write, hmod]
      have hlor : p.length / 256 * 256 ||| p.length % 256 = p.length := lor_be16 p.length
      have hne : ¬ p.length / 256 * 256 ||| p.length % 256 = 0 := by
        rw [hlor]; omega
      rw [hwa, read_cons _ _ _ hne, hlor, List.take_left, List.drop_left]
      rw [ih (fun q hq => h q (List.mem_cons_of_mem p hq))]

/-- C6 (witness): the round trip at a concrete pair of frames. -/
theorem c6_write_read_round_trip_witness :
    read (writeAll [[7], [1, 2, 3]]) = [[7], [1, 2, 3]] :=
  c6_write_read_round_trip [[7], [1, 2, 3]] (by decide)

end Netchannel

namespace Actlib

/-- Draining n negative replies leaves the negative default in place. -/
theorem collect_result_replicate_none (n : Nat) :
    collect_result (List.replicate n none) n = none := by
  induction n with
  | zero => rfl
  | succ k ih => simpa [List.replicate_succ, collect_result] using ih

/-- Erasing a key that was appended to a map not containing it restores
the original map. -/
theorem eraseKeyA_append_of_lookup_none {α β : Type} [DecidableEq α]
    (m : List (α × β)) (k : α) (v : β) (h : lookupA m k = none) :
    eraseKeyA (m ++ [(k, v)]) k = m := by
  induction m with
  | nil => simp [eraseKeyA]
  | cons q rest ih =>
      obtain ⟨k', v'⟩ := q
      have hk : ¬ k' = k := by
        intro hk
        simp [lookupA, hk] at h
      have h' : lookupA rest k = none := by
        simpa [lookupA, hk] using h
      simp [eraseKeyA, hk, ih h']

/-- A reference produced by to_actor_ref is never an InvalidState error. -/
theorem to_actor_ref_not_invalid_state (st : EnvState) (x : ActorId) :
    spawnErrIsInvalidState (to_actor_ref st x) = false := by
  unfold to_actor_ref
  split
  · split <;> rfl
  · rfl

/-- An error produced by the builder is always SpawnFailed. -/
theorem actor_builder_error_shape (r : List String) (t : String) (e : ActlibError)
    (h : actor_builder r t = .error e) : e = .SpawnFailed ("Unknown actor type: " ++ t) := by
  unfold actor_builder at h
  split at h
  · simp at h
  · injection h with h'
    exact h'.symm

/-- C1: evaluation of the code at the failing input. While the single
protector of the target is registered, a delivered Special(Stop) is ignored
(first conjunct, as the claim states); but after drop_protector has been
called for that only protecting searcher, a subsequently delivered
Special(Stop) is STILL ignored and the target stays in local_actor_channels
(second and third conjunct): remove_protector leaves the target's key with
an empty set and the Stop path tests bare key presence, so the claimed
completion of removal never happens. -/
theorem c1_stop_ignored_after_all_protectors_dropped :
    process_stop (add_protector stBase searcherId tgt) tgt =
      (add_protector stBase searcherId tgt, false) ∧
    process_stop (remove_protector (add_protector stBase searcherId tgt) searcherId tgt) tgt =
      (remove_protector (add_protector stBase searcherId tgt) searcherId tgt, false) ∧
    containsKeyA
      (process_stop (remove_protector (add_protector stBase searcherId tgt) searcherId tgt)
        tgt).1.local_actor_channels tgt = true := by
  decide

/-- C2: evaluation of the code at the failing input. With one peer (two
placement slots) and four Automatic placements, the drawn slots are
0, 1, 0, 0: slot 0 receives three actors although both the floor and the
ceiling of 4/2 equal two, and the fourth draw is 0 although the claimed
cycle 0,1,0,1,... demands (4-1) mod 2 = 1. The counter reset emits a second
consecutive 0 instead of restarting the cycle cleanly. -/
theorem c2_load_balancer_extra_zero :
    run_load_balancer (LoadBalancer.new 2) 4 = [0, 1, 0, 0] ∧
    (run_load_balancer (LoadBalancer.new 2) 4).count 0 = 3 ∧
    ¬ ((run_load_balancer (LoadBalancer.new 2) 4).count 0 = 4 / 2 ∨
       (run_load_balancer (LoadBalancer.new 2) 4).count 0 = (4 + 1) / 2) ∧
    (run_load_balancer (LoadBalancer.new 2) 4).getD 3 0 ≠ (4 - 1) % 2 := by
  decide

/-- C3 (counterexample): after send_expiration_signal, a Special(Stop) is
enqueued in the protected target's mailbox, yet processing that Stop leaves
the state unchanged, the actor running and its entry registered: a protected
actor does not stop on expiration, refuting the claim that protector state
is not honored there. -/
theorem c3_protected_actor_survives_expiration :
    (send_expiration_signal (add_protector stBase searcherId tgt)).local_actor_channels =
      [(tgt, [EitherMessage.Special Token.Stop])] ∧
    process_stop (send_expiration_signal (add_protector stBase searcherId tgt)) tgt =
      (send_expiration_signal (add_protector stBase searcherId tgt), false) ∧
    containsKeyA
      (process_stop (send_expiration_signal (add_protector stBase searcherId tgt))
        tgt).1.local_actor_channels tgt = true := by
  decide

/-- C3 (amended): after set_expired, a Special(Stop) is enqueued into every
mailbox registered in local_actor_channels and the termination signal is
released once; but protector state IS honored when that Stop is processed:
an actor whose id has an entry in the protectors map ignores the Stop and
keeps running, while an actor without such an entry stops, with on_stop
invoked and its entry removed from local_actor_channels. -/
theorem c3_expiration_enqueues_stop_protectors_honored (st : EnvState) (id : ActorId) :
    (send_expiration_signal st).local_actor_channels =
      st.local_actor_channels.map
        (fun p => (p.1, p.2 ++ [EitherMessage.Special Token.Stop])) ∧
    (send_expiration_signal st).termination_signals = st.termination_signals + 1 ∧
    (containsKeyA st.invincible_actors id = true → process_stop st id = (st, false)) ∧
    (containsKeyA st.invincible_actors id = false → id.location = st.localIp →
       process_stop st id =
         ({ st with local_actor_channels := eraseKeyA st.local_actor_channels id }, true)) := by
  refine ⟨?_, ?_, ?_, ?_⟩
  · simp [send_expiration_signal]
  · simp [send_expiration_signal]
  · intro hin
    simp [process_stop, hin]
  · intro hin hloc
    simp [process_stop, remove, hin, hloc]

/-- C3 (witness): an unprotected actor does stop. -/
theorem c3_expiration_witness :
    process_stop stBase tgt =
      ({ stBase with local_actor_channels := eraseKeyA stBase.local_actor_channels tgt }, true) :=
  (c3_expiration_enqueues_stop_protectors_honored stBase tgt).2.2.2 (by decide) (by decide)

/-- C4 (counterexample): with the outbound queue channel closed and
serialization succeeding, a remote send_message fails with InvalidActorRef,
not with the claimed NetworkError. -/
theorem c4_closed_outbound_queue_invalid_actor_ref :
    send_message (ActorRefChannel.Remote false) true =
      .error (.InvalidActorRef "Can no longer send Messages to remote Actors") ∧
    errIsNetworkError (send_message (ActorRefChannel.Remote false) true) = false :=
  ⟨rfl, rfl⟩

/-- C4 (amended): send_message succeeds exactly when the channel towards the
target is open and, in the remote case, serialization succeeds; it fails
with InvalidActorRef exactly when the used channel (local mailbox, or
remote outbound queue after successful serialization) is closed; and it
fails with NetworkError exactly when remote serialization fails. -/
theorem c4_send_message_error_kinds (ch : ActorRefChannel) (serializeOk : Bool) :
    (send_message ch serializeOk = .ok () ↔
       (channelOpen ch = true ∧ (channelIsRemote ch = true → serializeOk = true))) ∧
    (errIsNetworkError (send_message ch serializeOk) = true ↔
       (channelIsRemote ch = true ∧ serializeOk = false)) ∧
    (errIsInvalidActorRef (send_message ch serializeOk) = true ↔
       (channelOpen ch = false ∧ (channelIsRemote ch = true → serializeOk = true))) := by
  cases ch with
  | Local b => cases b <;> cases serializeOk <;> decide
  | Remote b => cases b <;> cases serializeOk <;> decide

/-- C4 (witness): a send over an open local channel succeeds. -/
theorem c4_send_message_error_kinds_witness :
    send_message (ActorRefChannel.Local true) true = .ok () :=
  (c4_send_message_error_kinds (ActorRefChannel.Local true) true).1.mpr (by decide)

/-- C5: evaluation of the code at the failing input: after the single
protector of the target is removed again, the target's key is still present
in the protectors map and maps to the empty set, violating the claimed
invariant that a key is present only while its protector set is non-empty
and that removing the last protector removes the key. -/
theorem c5_empty_protector_set_key_remains :
    lookupA (remove_protector (add_protector stBase searcherId tgt) searcherId tgt).invincible_actors
      tgt = some [] ∧
    containsKeyA (remove_protector (add_protector stBase searcherId tgt) searcherId
      tgt).invincible_actors tgt = true := by
  decide

/-- C7: on QuerySpecifiedIdResult(q, searcher, result) with an outstanding
lookup registered for (q, searcher): a positive result removes that entry
from the outstanding-lookup map and pushes a remote reference with
identifier (q, reported ip) onto its reply channel; a negative result
pushes a negative value onto the reply channel without removing the
entry. -/
theorem c7_query_result_resolution (st : EnvState) (q : List Nat) (s : ActorId) (ip : Ip)
    (h : lookupA st.remote_queries (q, s) = some ()) :
    handle_query_result st q s (some ip) =
      ({ st with remote_queries := eraseKeyA st.remote_queries (q, s) },
       some (some { actor_id := { local_id := LocalId.Specified q, location := ip },
                    sender := ActorRefChannel.Remote true })) ∧
    handle_query_result st q s none = (st, some none) := by
  constructor
  · simp [handle_query_result, h]
  · simp [handle_query_result, h]

/-- C7 (witness): resolution of a concrete outstanding lookup. -/
theorem c7_query_result_resolution_witness :
    handle_query_result stQuery [8] searcherId (some 3) =
      ({ stQuery with remote_queries := eraseKeyA stQuery.remote_queries ([8], searcherId) },
       some (some { actor_id := { local_id := LocalId.Specified [8], location := 3 },
                    sender := ActorRefChannel.Remote true })) :=
  (c7_query_result_resolution stQuery [8] searcherId 3 (by decide)).1

/-- C8: when no actor with the queried id is resident locally and every peer
replies negatively (including the case of no peers at all), find_actor_ref
returns a negative answer rather than an error, and the outstanding-lookup
entry is gone when the call returns. -/
theorem c8_negative_lookup_returns_none (st : EnvState) (q : List Nat) (s : ActorId) (pf : Bool)
    (h1 : containsKeyA st.local_actor_channels
            { local_id := LocalId.Specified q, location := st.localIp } = false)
    (h2 : lookupA st.remote_queries (q, s) = none) :
    (api_find_actor_ref st q s pf (List.replicate st.net_senders.length none)).2 = none ∧
    lookupA
      (api_find_actor_ref st q s pf (List.replicate st.net_senders.length none)).1.remote_queries
      (q, s) = none := by
  have hins : insertA st.remote_queries (q, s) () = st.remote_queries ++ [((q, s), ())] := by
    simp [insertA, containsKeyA, h2]
  simp only [api_find_actor_ref, env_find_actor_ref, remove_remote_query, h1,
    Bool.false_eq_true, if_false, hins, List.nil_append, List.length_map]
  rw [eraseKeyA_append_of_lookup_none _ _ _ h2]
  exact ⟨collect_result_replicate_none _, h2⟩

/-- C8 (witness): a lookup with no local resident and no peers returns a
negative answer. -/
theorem c8_negative_lookup_witness :
    (api_find_actor_ref stBase [8] searcherId false
       (List.replicate stBase.net_senders.length none)).2 = none :=
  (c8_negative_lookup_returns_none stBase [8] searcherId false (by decide) (by decide)).1

/-- C9: next_machine_no yields a slot strictly below num_machines whenever
the balancer is consistent with the peer map (num_machines = 1 + number of
peers, as established at environment construction), and consequently spawn
never returns the InvalidState error: a nonzero slot v always finds peer
v-1 in net_senders. -/
theorem c9_spawn_slot_always_valid (st : EnvState) (registered : List String) (tag : String)
    (sid : SpawnId) (freshUuid : Nat)
    (h : st.load_balancer.num_machines = 1 + st.net_senders.length) :
    (st.load_balancer.next_machine_no).1 < st.load_balancer.num_machines ∧
    spawnErrIsInvalidState (spawn st registered tag sid freshUuid).2 = false := by
  have hpos : 0 < st.load_balancer.num_machines := by omega
  constructor
  · unfold LoadBalancer.next_machine_no
    split
    · simpa using ‹st.load_balancer.counter < st.load_balancer.num_machines›
    · simpa using hpos
  · by_cases hs : sid.is_spawn_here = true
    · simp only [spawn, hs, if_true]
      cases hb : actor_builder registered tag with
      | error e =>
          rw [actor_builder_error_shape registered tag e hb]
          rfl
      | ok u => rfl
    · have hs' : sid.is_spawn_here = false := by
        cases hval : sid.is_spawn_here
        · rfl
        · exact absurd hval hs
      have hlt : (st.load_balancer.next_machine_no).1 < st.load_balancer.num_machines := by
        unfold LoadBalancer.next_machine_no
        split
        · simpa using ‹st.load_balancer.counter < st.load_balancer.num_machines›
        · simpa using hpos
      simp only [spawn, hs', Bool.false_eq_true, if_false]
      cases hnm : (st.load_balancer.next_machine_no).1 with
      | zero =>
          cases hb : actor_builder registered tag with
          | error e =>
              rw [actor_builder_error_shape registered tag e hb]
              rfl
          | ok u => rfl
      | succ v =>
          have hv : v < st.net_senders.length := by
            rw [hnm] at hlt
            omega
          have hget : ∃ entry, st.net_senders.get? v = some entry := by
            rw [List.get?_eq_get hv]
            exact ⟨_, rfl⟩
          obtain ⟨entry, hget⟩ := hget
          simp only [hget]
          exact to_actor_ref_not_invalid_state _ _

/-- C9 (witness): a spawn on a two-peer environment with the balancer
mid-cycle does not produce InvalidState. -/
theorem c9_spawn_slot_witness :
    spawnErrIsInvalidState (spawn stTwoPeers ["A"] "A" SpawnId.Automatic 5).2 = false :=
  (c9_spawn_slot_always_valid stTwoPeers ["A"] "A" SpawnId.Automatic 5 (by decide)).2

/-- C10: when spawn places locally (a SpawnHere id, or a load-balancer draw
of slot 0) and the type tag is unknown to the actor builder, the call
returns the builder's SpawnFailed error and local_actor_channels is left
exactly as it was: the builder runs before any mailbox registration, so no
entry is inserted and no actor loop is started. -/
theorem c10_unknown_tag_no_registration (st : EnvState) (registered : List String)
    (tag : String) (sid : SpawnId) (freshUuid : Nat)
    (hTag : tag ∉ registered)
    (hLocal : sid.is_spawn_here = true ∨ (st.load_balancer.next_machine_no).1 = 0) :
    (spawn st registered tag sid freshUuid).2 =
      .error (.SpawnFailed ("Unknown actor type: " ++ tag)) ∧
    (spawn st registered tag sid freshUuid).1.local_actor_channels = st.local_actor_channels := by
  have hb : actor_builder registered tag =
      .error (.SpawnFailed ("Unknown actor type: " ++ tag)) := by
    simp [actor_builder, hTag]
  by_cases hs : sid.is_spawn_here = true
  · simp only [spawn, hs, if_true, hb]
    exact ⟨by trivial, by trivial⟩
  · have hs' : sid.is_spawn_here = false := by
      cases hval : sid.is_spawn_here
      · rfl
      · exact absurd hval hs
    have h0 : (st.load_balancer.next_machine_no).1 = 0 := by
      cases hLocal with
      | inl hl => exact absurd hl hs
      | inr hr => exact hr
    simp only [spawn, hs', Bool.false_eq_true, if_false, h0, hb]
    exact ⟨by trivial, by trivial⟩

/-- C10 (witness): spawning an unknown tag on the base fixture fails with
SpawnFailed and leaves the registry untouched. -/
theorem c10_unknown_tag_witness :
    (spawn stBase [] "B" SpawnId.Automatic 0).2 =
      .error (.SpawnFailed ("Unknown actor type: " ++ "B")) :=
  (c10_unknown_tag_no_registration stBase [] "B" SpawnId.Automatic 0 (by decide)
    (Or.inr (by decide))).1

end Actlib
